import Mathlib

/-!
Verification development for the Clemson Kilonova Code (app-kilonova).

Shallow embedding conventions:
* Rust `f64` quantities are modelled as exact rationals (`ℚ`); the decimal
  literals of the source become the corresponding rational values, and field
  arithmetic is exact.  All claims settled here depend only on dyadic values
  (0, 0.25, 0.5, ...) for which IEEE-754 double arithmetic is itself exact,
  or on algebraic identities that hold independently of rounding.
* Transcendental `f64` functions (`sqrt`, `powf`, `exp`, `cos`) are abstracted
  into a record of function parameters (`FloatOps`): no claim depends on their
  values, and every theorem quantifies over them.
* Wall-clock time (`std::time::Instant`) is modelled by threading an explicit
  rational instant `now` through the functions that read the clock.
* File and console output performed by `side_effects` (src/src/main.rs) is
  modelled as a list of structured `Event`s carrying the data that the source
  writes; the serialized payload bytes themselves are abstracted.
-/

/-- A task, or side-effect, such as reporting, analysis, or data output
(src/src/tasks.rs, `RecurringTask`).  `last_performed` is the wall-clock
instant of the last firing, modelled as a rational instant. -/
structure RecurringTask where
  count : Nat
  next_time : ℚ
  last_performed : ℚ
  count_this_run : Nat
deriving Repr, DecidableEq

/-- All the tasks that are used in this application (src/src/tasks.rs, `Tasks`). -/
structure Tasks where
  write_checkpoint : RecurringTask
  write_products : RecurringTask
  iteration_message : RecurringTask
  report_progress : RecurringTask
deriving Repr, DecidableEq

/-- `RecurringTask::new(start_time)` (src/src/tasks.rs:59-66): a fresh task,
first due at `start_time`; the constructor reads the wall clock (`now`). -/
def RecurringTask.new (start_time : ℚ) (now : ℚ) : RecurringTask :=
  { count := 0
    next_time := start_time
    last_performed := now
    count_this_run := 0 }

/-- `RecurringTask::advance(interval)` (src/src/tasks.rs:73-80): mark the task
as just performed, schedule it again after `interval`, and return the wall
seconds elapsed since the previous firing.  The call reads the wall clock,
modelled by the explicit instant `now`. -/
def RecurringTask.advance (t : RecurringTask) (interval : ℚ) (now : ℚ) :
    RecurringTask × ℚ :=
  ({ count := t.count + 1
     next_time := t.next_time + interval
     last_performed := now
     count_this_run := t.count_this_run + 1 },
   now - t.last_performed)

/-- `Tasks::new(start_time)` (src/src/tasks.rs:88-95). -/
def Tasks.new (start_time : ℚ) (now : ℚ) : Tasks :=
  { write_checkpoint := RecurringTask.new start_time now
    write_products := RecurringTask.new start_time now
    iteration_message := RecurringTask.new start_time now
    report_progress := RecurringTask.new start_time now }

/-- `n`-fold iteration of `RecurringTask.advance` with a fixed interval. -/
def RecurringTask.advanceN (t : RecurringTask) (interval : ℚ) (now : ℚ) :
    Nat → RecurringTask
  | 0 => t
  | n + 1 => ((t.advanceN interval now n).advance interval now).1

/-- The once-per-step due check that the run loop applies to one recurring
task (the `if task.next_time <= state.time` pattern of `side_effects`,
src/src/main.rs:240-265), folded over a list of successive simulation times:
returns the simulation times at which the task fires. -/
def fire_times (interval : ℚ) (now : ℚ) : RecurringTask → List ℚ → List ℚ
  | _, [] => []
  | t, time :: rest =>
      if t.next_time ≤ time then
        time :: fire_times interval now ((t.advance interval now).1) rest
      else
        fire_times interval now t rest

theorem RecurringTask.advanceN_next_time (t : RecurringTask) (interval now : ℚ) :
    ∀ n : Nat, (t.advanceN interval now n).next_time = t.next_time + n * interval := by
  intro n
  induction n with
  | zero => simp [RecurringTask.advanceN]
  | succ n ih =>
      simp [RecurringTask.advanceN, RecurringTask.advance, ih]
      ring

/-- Claim C4: `RecurringTask::advance(interval)` increments `count` by exactly
one, increases `next_time` by exactly `interval`, resets the wall-clock
timestamp of the last firing (to the current instant), and returns the wall
seconds elapsed since the previous firing. -/
theorem recurring_task_advance_spec (t : RecurringTask) (interval now : ℚ) :
    ((t.advance interval now).1.count = t.count + 1)
    ∧ ((t.advance interval now).1.next_time = t.next_time + interval)
    ∧ ((t.advance interval now).1.last_performed = now)
    ∧ ((t.advance interval now).2 = now - t.last_performed) :=
  ⟨rfl, rfl, rfl, rfl⟩

/-- Claim C5: a task created with `start_time = 0` and repeatedly advanced
with interval `0.25` has `next_time = 0.25 * n` after `n` calls; and, under
the run loop's once-per-step due check on a time grid that crosses the
thresholds (grid step 1/8), the task fires exactly once at each of
0, 0.25, 0.5, 0.75, 1. -/
theorem recurring_task_quarter_schedule :
    (∀ (start_clock now : ℚ) (n : Nat),
      ((RecurringTask.new 0 start_clock).advanceN (1/4) now n).next_time = n * (1/4))
    ∧ fire_times (1/4) 1 (RecurringTask.new 0 0)
        [0, 1/8, 1/4, 3/8, 1/2, 5/8, 3/4, 7/8, 1, 9/8]
      = [0, 1/4, 1/2, 3/4, 1] := by
  constructor
  · intro start_clock now n
    rw [RecurringTask.advanceN_next_time]
    simp [RecurringTask.new]
  · norm_num [fire_times, RecurringTask.advance, RecurringTask.new]

/-!
## The JetInStar initial model (src/src/models/jet_in_star.rs)
-/

/-- The transcendental `f64` operations used by `jet_in_star.rs`, abstracted
as parameters: none of the claims settled here depends on their values. -/
structure FloatOps where
  sqrt : ℚ → ℚ
  powf : ℚ → ℚ → ℚ
  exp : ℚ → ℚ
  cos : ℚ → ℚ

/-- `std::f64::consts::PI`: the exact rational value of the IEEE-754 double
nearest to the circle constant (0x400921FB54442D18). -/
def PI : ℚ := 884279719003555 / 281474976710656

/-- Modelled from the spec: `physics.rs` is not under src/; `LIGHT_SPEED` is
the speed of light in cgs units, imported by `jet_in_star.rs`. -/
def LIGHT_SPEED : ℚ := 2.99792458e10

/-- Primitive hydrodynamic variables at a point (`AnyPrimitive`).  Modelled
from the spec (`physics.rs` is not under src/): radial velocity, polar
velocity, mass density, gas pressure, consistent with every use in
`jet_in_star.rs`. -/
structure AnyPrimitive where
  velocity_r : ℚ
  velocity_q : ℚ
  mass_density : ℚ
  gas_pressure : ℚ
deriving Repr, DecidableEq

namespace jet_in_star

/-- `static UNIFORM_TEMPERATURE` (jet_in_star.rs:9). -/
def UNIFORM_TEMPERATURE : ℚ := 1e-3

/-- Constants as given in Duffel and MacFadyen (2015) (jet_in_star.rs:13-25). -/
def R0 : ℚ := 7e10

def M0 : ℚ := 2e33

def RHO_C : ℚ := 3e7 * M0 / (1.33 * PI * R0 * R0 * R0)

def R1 : ℚ := 0.0017 * R0

def R2 : ℚ := 0.0125 * R0

def R3 : ℚ := 0.65 * R0

def K1 : ℚ := 3.24

def K2 : ℚ := 2.57

def N : ℚ := 16.7

def RHO_WIND : ℚ := 1e-9 * M0 / (1.33 * PI * R0 * R0 * R0)

def RHO_ENV : ℚ := 1e-7 * M0 / (1.33 * PI * R0 * R0 * R0)

def R_NOZZ : ℚ := 0.01 * R0

def R_ENV : ℚ := 1.2 * R0

end jet_in_star

/-- Jet propagating through a star and surrounding relativistic envelope
(jet_in_star.rs, `JetInStar`). -/
structure JetInStar where
  star_mass : ℚ
  engine_duration : ℚ
  engine_energy : ℚ
  engine_theta : ℚ
  engine_u : ℚ
deriving Repr, DecidableEq

/-- Different space-time zones in the setup (jet_in_star.rs, `Zone`). -/
inductive Zone where
  | Core
  | Envelope
  | Wind
  | Jet
deriving Repr, DecidableEq

/-- `JetInStar::engine_beta` (jet_in_star.rs:130-132): dimensionless jet
velocity v_jet / c. -/
def JetInStar.engine_beta (m : JetInStar) (ops : FloatOps) : ℚ :=
  m.engine_u / ops.sqrt (1 + m.engine_u ^ 2)

/-- `JetInStar::in_nozzle` (jet_in_star.rs:139-141): whether a polar angle is
within `engine_theta` of either pole. -/
def JetInStar.in_nozzle (m : JetInStar) (q : ℚ) : Bool :=
  q < m.engine_theta || PI - m.engine_theta < q

/-- `JetInStar::get_jet_head` (jet_in_star.rs:148-151). -/
def JetInStar.get_jet_head (m : JetInStar) (ops : FloatOps) (t : ℚ) : ℚ :=
  let v_jet := m.engine_beta ops * LIGHT_SPEED
  v_jet * t

/-- `JetInStar::zone` (jet_in_star.rs:160-173): the zone of the ambient
medium for a given radius, polar angle, and time. -/
def JetInStar.zone (m : JetInStar) (ops : FloatOps) (r q t : ℚ) : Zone :=
  let v_jet := m.engine_beta ops * LIGHT_SPEED
  let r_jet_head := v_jet * t
  if m.in_nozzle q ∧ r < r_jet_head then
    Zone.Jet
  else if r < jet_in_star.R3 then
    Zone.Core
  else if jet_in_star.R3 < r ∧ r < jet_in_star.R_ENV then
    Zone.Envelope
  else
    Zone.Wind

/-- `JetInStar::gamma_beta` (jet_in_star.rs:182-192): the radial
four-velocity. -/
def JetInStar.gamma_beta (m : JetInStar) (ops : FloatOps) (r q t : ℚ) : ℚ :=
  match m.zone ops r q t with
  | Zone.Jet => m.engine_u
  | _ => 0

/-- `JetInStar::nozzle_function` (jet_in_star.rs:201-214). -/
def JetInStar.nozzle_function (m : JetInStar) (ops : FloatOps) (r q : ℚ) : ℚ :=
  let r0 := jet_in_star.R_NOZZ / jet_in_star.R0
  let q2 := m.engine_theta ^ 2
  let n_0 := 4 * PI * r0 * r0 * r0 * (1 - ops.exp (-2 / q2)) * q2
  let g := (r / jet_in_star.R_NOZZ) * ops.exp (-(ops.powf (r / jet_in_star.R_NOZZ) 2) / 2)
            * ops.exp ((ops.powf (ops.cos q) 2 - 1) / q2)
  g / n_0

/-- `JetInStar::jet_mass_rate_per_steradian` (jet_in_star.rs:216-221). -/
def JetInStar.jet_mass_rate_per_steradian (m : JetInStar) (ops : FloatOps) (r q : ℚ) : ℚ :=
  let engine_gamma := ops.sqrt (1 + m.engine_u * m.engine_u)
  let e := m.engine_energy
  let l := m.nozzle_function ops r q * e / (4 * PI * m.engine_duration)
  l / (engine_gamma * LIGHT_SPEED * LIGHT_SPEED)

/-- `JetInStar::mass_density` (jet_in_star.rs:113-125): the comoving mass
density in g/cc. -/
def JetInStar.mass_density (m : JetInStar) (ops : FloatOps) (r q t : ℚ) : ℚ :=
  let zone := m.zone ops r q t
  let num := jet_in_star.RHO_C * ops.powf (1 - r / jet_in_star.R3) jet_in_star.N
  let denom := 1 + ops.powf (r / jet_in_star.R1) jet_in_star.K1
                / (1 + ops.powf (r / jet_in_star.R2) jet_in_star.K2)
  let core_zone := num / denom
  match zone with
  | Zone.Core => core_zone + jet_in_star.RHO_ENV * ops.powf (r / jet_in_star.R3) (-2)
  | Zone.Envelope => jet_in_star.RHO_ENV * ops.powf (r / jet_in_star.R3) (-2)
  | Zone.Jet => m.jet_mass_rate_per_steradian ops r q / (r * r * m.engine_u * LIGHT_SPEED)
  | Zone.Wind => jet_in_star.RHO_WIND * ops.powf (r / jet_in_star.R_ENV) (-2)

/-- `<JetInStar as InitialModel>::validate` (jet_in_star.rs:73-75). -/
def JetInStar.validate (_m : JetInStar) : Except String Unit :=
  Except.ok ()

/-- `<JetInStar as InitialModel>::primitive_at` (jet_in_star.rs:77-89). -/
def JetInStar.primitive_at (m : JetInStar) (ops : FloatOps) (coordinate : ℚ × ℚ) (t : ℚ) :
    AnyPrimitive :=
  let r := coordinate.1
  let q := coordinate.2
  let d := m.mass_density ops r q t
  let u := m.gamma_beta ops r q t
  let p := d * jet_in_star.UNIFORM_TEMPERATURE
  { velocity_r := u
    velocity_q := 0
    mass_density := d
    gas_pressure := p }

/-- `<JetInStar as InitialModel>::scalar_at` (jet_in_star.rs:91-101). -/
def JetInStar.scalar_at (m : JetInStar) (ops : FloatOps) (coordinate : ℚ × ℚ) (t : ℚ) : ℚ :=
  let r := coordinate.1
  let q := coordinate.2
  let zone := m.zone ops r q t
  match zone with
  | Zone.Core => 1
  | Zone.Jet => 1e2
  | Zone.Envelope => 1e-2 * ops.powf (r / jet_in_star.R3) (-2)
  | Zone.Wind => 1e-5 * ops.powf (r / jet_in_star.R_ENV) (-2)

/-- Concrete transcendental operations used by closed witness statements. -/
def cexOps : FloatOps :=
  { sqrt := fun x => x
    powf := fun x _ => x
    exp := fun x => x
    cos := fun x => x }

/-- A concrete `JetInStar` instance used by closed witness statements. -/
def cexJet : JetInStar :=
  { star_mass := 1
    engine_duration := 1
    engine_energy := 1
    engine_theta := 1/2
    engine_u := 1 }

/-- Claim C8: for every `JetInStar` instance, coordinate and time, the
`Primitive` returned by `primitive_at` has polar velocity exactly 0 and gas
pressure exactly `1e-3` times its mass density. -/
theorem jet_in_star_primitive_invariants (ops : FloatOps) (m : JetInStar) (r q t : ℚ) :
    (m.primitive_at ops (r, q) t).velocity_q = 0
    ∧ (m.primitive_at ops (r, q) t).gas_pressure
        = (m.primitive_at ops (r, q) t).mass_density * (1/1000) := by
  constructor
  · rfl
  · show m.mass_density ops r q t * jet_in_star.UNIFORM_TEMPERATURE
        = m.mass_density ops r q t * (1/1000)
    norm_num [jet_in_star.UNIFORM_TEMPERATURE]

/-- Claim C9: at `t = 0` the jet head is at radius 0, so no coordinate with
`r ≥ 0` is classified in the `Jet` zone, and `primitive_at` returns radial
velocity exactly 0 there. -/
theorem jet_in_star_no_jet_at_time_zero (ops : FloatOps) (m : JetInStar) (r q : ℚ)
    (hr : 0 ≤ r) :
    m.zone ops r q 0 ≠ Zone.Jet
    ∧ (m.primitive_at ops (r, q) 0).velocity_r = 0 := by
  have hz : m.zone ops r q 0 ≠ Zone.Jet := by
    unfold JetInStar.zone
    simp only [mul_zero]
    split_ifs with h1 h2 h3
    · exact absurd h1.2 (not_lt.mpr hr)
    · exact fun hcon => Zone.noConfusion hcon
    · exact fun hcon => Zone.noConfusion hcon
    · exact fun hcon => Zone.noConfusion hcon
  refine ⟨hz, ?_⟩
  show m.gamma_beta ops r q 0 = 0
  unfold JetInStar.gamma_beta
  cases hzz : m.zone ops r q 0 with
  | Core => simp
  | Envelope => simp
  | Wind => simp
  | Jet => exact absurd hzz hz

/-- Witness for C9 at the concrete input `m = cexJet`, `r = 2`, `q = 0`,
`t = 0`. -/
theorem jet_in_star_no_jet_at_time_zero_witness :
    (0 : ℚ) ≤ 2
    ∧ (cexJet.zone cexOps 2 0 0 ≠ Zone.Jet
        ∧ (cexJet.primitive_at cexOps (2, 0) 0).velocity_r = 0) :=
  ⟨by norm_num, jet_in_star_no_jet_at_time_zero cexOps cexJet 2 0 (by norm_num)⟩

/-- Claim C10: `JetInStar::validate` returns `Ok(())` for every instance. -/
theorem jet_in_star_validate_ok (m : JetInStar) :
    m.validate = Except.ok () :=
  rfl

/-!
## The application and run loop (src/src/main.rs)
-/

/-- Modelled from the spec: `state.rs` and the external srhd crate are not
under src/.  A per-cell conserved state vector: mass, momentum components,
energy, and a passive scalar. -/
structure Conserved where
  mass : ℚ
  momentum_r : ℚ
  momentum_q : ℚ
  energy : ℚ
  scalar : ℚ
deriving Repr, DecidableEq

/-- Modelled from the spec: `mesh.rs` is not under src/.  The geometry of one
block: its ordered cell-center coordinates (interface data is omitted since
no claim depends on it). -/
structure BlockGeometry where
  cell_centers : List (ℚ × ℚ)
deriving Repr, DecidableEq

/-- The per-block geometries of the whole lattice, ordered by block index. -/
abbrev Geometry := List BlockGeometry

/-- Modelled from the spec: `physics.rs` is not under src/.  The stateless
descriptor of the special-relativistic system (`RelativisticHydro`): an
adiabatic index together with the primitive-and-scalar to conserved
conversion it selects. -/
structure RelativisticHydro where
  gamma_law_index : ℚ
  to_conserved : AnyPrimitive → ℚ → Conserved

/-- The model choice enum of src/src/main.rs:79-82 (`Model`), with variants
`JetInCloud` and `HaloKilonova`.  Modelled from the spec:
`models/jet_in_cloud.rs` and `models/halo_kilonova.rs` are not under src/;
each variant supplies the `InitialModel` capability, i.e. its `primitive_at`
and `scalar_at` functions. -/
inductive Model where
  | jet_in_cloud (primitive_at : ℚ × ℚ → ℚ → AnyPrimitive) (scalar_at : ℚ × ℚ → ℚ → ℚ)
  | halo_kilonova (primitive_at : ℚ × ℚ → ℚ → AnyPrimitive) (scalar_at : ℚ × ℚ → ℚ → ℚ)

/-- `InitialModel::primitive_at` dispatched over the model enum. -/
def Model.primitive_at : Model → ℚ × ℚ → ℚ → AnyPrimitive
  | Model.jet_in_cloud p _, x, t => p x t
  | Model.halo_kilonova p _, x, t => p x t

/-- `InitialModel::scalar_at` dispatched over the model enum. -/
def Model.scalar_at : Model → ℚ × ℚ → ℚ → ℚ
  | Model.jet_in_cloud _ s, x, t => s x t
  | Model.halo_kilonova _ s, x, t => s x t

/-- Enum for any of the supported hydrodynamics types
(src/src/main.rs:90-93, `AgnosticHydro`). -/
inductive AgnosticHydro where
  | euler
  | relativistic (hydro : RelativisticHydro)

/-- Modelled from the spec: `mesh.rs` is not under src/.  The mesh
description from the configuration, abstracted as the cell-center
coordinates of each block of the lattice. -/
structure Mesh where
  block_centers : List (List (ℚ × ℚ))

/-- Modelled from the spec: `Mesh::grid_blocks_geometry` produces the
per-block geometries, failing with a configuration error when a block would
have non-positive cell extents (an empty block). -/
def Mesh.grid_blocks_geometry (mesh : Mesh) : Except String Geometry :=
  if mesh.block_centers.any List.isEmpty then
    Except.error "mesh implies non-positive cell extents"
  else
    Except.ok (mesh.block_centers.map BlockGeometry.mk)

/-- The solution state (`State<C>`).  Modelled from the spec: `state.rs` is
not under src/; it holds the simulation clock (iteration, time) and the
per-block conserved arrays. -/
structure State where
  time : ℚ
  iteration : Nat
  solution : List (List Conserved)

/-- `State::total_zones` (spec section 4.3): total cell count across blocks. -/
def State.total_zones (state : State) : Nat :=
  (state.solution.map List.length).sum

/-- `State::from_model` (spec sections 3 and 4.3; `state.rs` is not under
src/): for every block, sample `primitive_at` and `scalar_at` at every cell
center at `t = 0` and convert to conserved variables. -/
def State.from_model (model : Model) (hydro : RelativisticHydro) (geometry : Geometry) :
    State :=
  { time := 0
    iteration := 0
    solution := geometry.map fun g =>
      g.cell_centers.map fun x =>
        hydro.to_conserved (model.primitive_at x 0) (model.scalar_at x 0) }

/-- Enum for the solution state of any of the supported hydrodynamics types
(src/src/main.rs:100-103, `AgnosticState`). -/
inductive AgnosticState where
  | euler
  | relativistic (state : State)

/-- Simulation control (src/src/main.rs:112-116, `Control`). -/
structure Control where
  final_time : ℚ
  checkpoint_interval : ℚ
  products_interval : ℚ

/-- User configuration (src/src/main.rs:124-129, `Configuration`). -/
structure Configuration where
  hydro : AgnosticHydro
  model : Model
  mesh : Mesh
  control : Control

/-- App state (src/src/main.rs:136-140, `App`). -/
structure App where
  state : AgnosticState
  tasks : Tasks
  config : Configuration

/-- `App::from_config` (src/src/main.rs:185-197).  The `Tasks` constructor in
src/src/tasks.rs takes a start time; the call at main.rs:195 starts the task
schedule at time 0 and reads the wall clock (`now`). -/
def App.from_config (now : ℚ) (config : Configuration) : Except String App := do
  let geometry ← config.mesh.grid_blocks_geometry
  match config.hydro with
  | AgnosticHydro.euler =>
      Except.error "hydro: euler is not implemented yet"
  | AgnosticHydro.relativistic hydro =>
      let state := AgnosticState.relativistic (State.from_model config.model hydro geometry)
      let tasks := Tasks.new 0 now
      Except.ok { state := state, tasks := tasks, config := config }

/-- One observable side effect of `side_effects` (src/src/main.rs:232-268):
either the iteration message with the data interpolated into the format
string at main.rs:244, or the write of a checkpoint or products file,
identified by its filename sequence number and carrying the simulation time
of the serialized state. -/
inductive Event where
  | iteration_message (iteration : Nat) (time : ℚ) (blocks : Nat) (mzps : ℚ)
  | write_checkpoint (sequence : Nat) (time : ℚ)
  | write_products (sequence : Nat) (time : ℚ)
deriving Repr, DecidableEq

/-- Whether an event is the iteration message. -/
def Event.isIterationMessage : Event → Bool
  | Event.iteration_message _ _ _ _ => true
  | _ => false

/-- The simulation times of the checkpoint events of a run, in order. -/
def checkpoint_times (events : List Event) : List ℚ :=
  events.filterMap fun e =>
    match e with
    | Event.write_checkpoint _ t => some t
    | _ => none

/-- `side_effects` (src/src/main.rs:232-268): once per step, check each of
the three serviced tasks against `next_time <= state.time`; fire the due
ones.  File and console writes are collected as `Event`s; the wall clock is
the explicit instant `now`. -/
def side_effects (now : ℚ) (state : State) (tasks : Tasks)
    (_hydro : RelativisticHydro) (_model : Model) (_mesh : Mesh) (control : Control) :
    Tasks × List Event :=
  let step1 : Tasks × List Event :=
    if tasks.iteration_message.next_time ≤ state.time then
      let tk := (tasks.iteration_message.advance 0 now).1
      let secs := (tasks.iteration_message.advance 0 now).2
      let mzps := 1 / 1000000 * (state.total_zones : ℚ) / secs
      ({ tasks with iteration_message := tk },
       if tk.count_this_run > 1 then
         [Event.iteration_message state.iteration state.time state.solution.length mzps]
       else
         [])
    else
      (tasks, [])
  let tasks1 := step1.1
  let step2 : Tasks × List Event :=
    if tasks1.write_checkpoint.next_time ≤ state.time then
      let tk := (tasks1.write_checkpoint.advance control.checkpoint_interval now).1
      ({ tasks1 with write_checkpoint := tk },
       [Event.write_checkpoint (tk.count - 1) state.time])
    else
      (tasks1, [])
  let tasks2 := step2.1
  let step3 : Tasks × List Event :=
    if tasks2.write_products.next_time ≤ state.time then
      let tk := (tasks2.write_products.advance control.products_interval now).1
      ({ tasks2 with write_products := tk },
       [Event.write_products (tk.count - 1) state.time])
    else
      (tasks2, [])
  (step3.1, step1.2 ++ step2.2 ++ step3.2)

/-- Modelled from the spec: `scheme.rs` is not under src/.  As called at
src/src/main.rs:284, `scheme::advance` takes the state, the hydro system,
and the mesh, and updates the state through the mutable reference; per spec
section 4.4 its bookkeeping is `time += dt` and `iteration += 1`, with the
globally shared step size `dt` made an explicit parameter and the per-cell
conserved update abstracted (no claim depends on its values). -/
def scheme.advance (dt : ℚ) (_hydro : RelativisticHydro) (_mesh : Mesh) (state : State) :
    State :=
  { state with time := state.time + dt, iteration := state.iteration + 1 }

/-- The solution-state transformation performed by one iteration of the run
loop (src/src/main.rs:284), written as a function of every input the
specification claims `Scheme::advance` consumes: the state, the system, the
model, the geometry source, the worker-pool size, and the fold count.  The
call site passes only the state, the system, and the mesh. -/
def run_step (dt : ℚ) (hydro : RelativisticHydro) (_model : Model) (mesh : Mesh)
    (_workers : Nat) (_fold : Nat) (state : State) : State :=
  scheme.advance dt hydro mesh state

/-- `run` (src/src/main.rs:274-290): while `state.time < control.final_time`,
perform side effects and advance the state in place; perform a final round
of side effects after the loop.  The loop is driven by a fuel parameter;
every theorem below either supplies ample fuel or holds for all fuel. -/
def run (fuel : Nat) (dt now : ℚ) (state : State) (tasks : Tasks)
    (hydro : RelativisticHydro) (model : Model) (mesh : Mesh) (control : Control) :
    State × Tasks × List Event :=
  match fuel with
  | 0 => (state, tasks, [])
  | fuel + 1 =>
      if state.time < control.final_time then
        let step := side_effects now state tasks hydro model mesh control
        let state1 := scheme.advance dt hydro mesh state
        let rest := run fuel dt now state1 step.1 hydro model mesh control
        (rest.1, rest.2.1, step.2 ++ rest.2.2)
      else
        let step := side_effects now state tasks hydro model mesh control
        (state, step.1, step.2)

/-- `fn main` (src/src/main.rs:296-313): build the app from the
configuration, then dispatch on the state and hydro variants; the Euler
variants fail, the relativistic pair enters `run`.  The `unreachable!()` arm
is modelled as an error.  (Named `app_main` because `main` is reserved.) -/
def app_main (fuel : Nat) (dt now : ℚ) (config : Configuration) :
    Except String (State × Tasks × List Event) := do
  let app ← App.from_config now config
  match app.state, app.config.hydro with
  | AgnosticState.euler, _ =>
      Except.error "Euler hydrodynamics not implemented"
  | AgnosticState.relativistic state, AgnosticHydro.relativistic hydro =>
      Except.ok (run fuel dt now state app.tasks hydro app.config.model
        app.config.mesh app.config.control)
  | AgnosticState.relativistic _, AgnosticHydro.euler =>
      Except.error "unreachable"

/-!
## Concrete fixtures for closed statements
-/

/-- A concrete sampled primitive used by the concrete models below. -/
def cexPrimitiveFn : ℚ × ℚ → ℚ → AnyPrimitive :=
  fun _ _ => { velocity_r := 0, velocity_q := 0, mass_density := 1, gas_pressure := 1 }

/-- A concrete tracer field used by the concrete models below. -/
def cexScalarFn : ℚ × ℚ → ℚ → ℚ :=
  fun _ _ => 0

/-- A concrete `JetInCloud`-variant model. -/
def cexModelA : Model := Model.jet_in_cloud cexPrimitiveFn cexScalarFn

/-- A concrete `HaloKilonova`-variant model. -/
def cexModelB : Model := Model.halo_kilonova cexPrimitiveFn cexScalarFn

/-- A concrete relativistic hydro system. -/
def cexHydro : RelativisticHydro :=
  { gamma_law_index := 4/3
    to_conserved := fun p s =>
      { mass := p.mass_density, momentum_r := 0, momentum_q := 0
        energy := p.gas_pressure, scalar := s } }

/-- A concrete one-block, one-cell mesh. -/
def cexMesh : Mesh := { block_centers := [[(1, 1)]] }

/-- Concrete control parameters: final time 1, both write intervals 1/4. -/
def cexControl : Control :=
  { final_time := 1, checkpoint_interval := 1/4, products_interval := 1/4 }

/-- A concrete initial solution state at time 0 with one block of one cell. -/
def cexState0 : State :=
  { time := 0
    iteration := 0
    solution := [[{ mass := 1, momentum_r := 0, momentum_q := 0, energy := 1, scalar := 0 }]] }

/-- A concrete configuration selecting the relativistic system. -/
def cexRelConfig : Configuration :=
  { hydro := AgnosticHydro.relativistic cexHydro
    model := cexModelA
    mesh := cexMesh
    control := cexControl }

/-- A concrete configuration selecting the Euler system. -/
def cexEulerConfig : Configuration :=
  { hydro := AgnosticHydro.euler
    model := cexModelA
    mesh := cexMesh
    control := cexControl }

/-!
## Claims about the run loop
-/

/-- Claim C1 (amended): `scheme::advance` is the sole transformation applied
to the solution state by the run loop: the state returned by `run` is an
iterate of `scheme.advance` (applied with the step size, the hydro system
and the mesh, the only inputs the call at main.rs:284 passes) on the initial
state; the per-iteration transformation receives no model, worker pool or
fold count, and the state changes only through it. -/
theorem run_state_sole_transform (fuel : Nat) (dt now : ℚ) (state : State) (tasks : Tasks)
    (hydro : RelativisticHydro) (model : Model) (mesh : Mesh) (control : Control) :
    ∃ k : Nat, (run fuel dt now state tasks hydro model mesh control).1
      = (fun s => scheme.advance dt hydro mesh s)^[k] state := by
  induction fuel generalizing state tasks with
  | zero => exact ⟨0, rfl⟩
  | succ fuel ih =>
      by_cases h : state.time < control.final_time
      · obtain ⟨k, hk⟩ := ih (scheme.advance dt hydro mesh state)
          (side_effects now state tasks hydro model mesh control).1
        refine ⟨k + 1, ?_⟩
        rw [Function.iterate_succ_apply]
        simpa [run, h] using hk
      · exact ⟨0, by simp [run, h]⟩

/-- Counterexample to claim C1 as stated: the claimed signature
`Scheme::advance(state, system, model, geometry, worker_pool, fold)` would
make the per-iteration successor state depend on the model, the worker pool
and the fold count, but the call at main.rs:284 passes only the state, the
system and the mesh: two provably different models, combined with different
worker-pool and fold values, produce the identical successor state. -/
theorem run_step_ignores_model_pool_fold :
    cexModelA ≠ cexModelB
    ∧ run_step 1 cexHydro cexModelA cexMesh 1 1 cexState0
        = run_step 1 cexHydro cexModelB cexMesh 8 4 cexState0 := by
  constructor
  · intro h
    exact Model.noConfusion h
  · rfl

/-- Claim C2: with `final_time = 1`, `checkpoint_interval = 1/4` and the task
schedule starting at time 0, the run produces exactly five checkpoint events,
at the simulated times 0, 1/4, 1/2, 3/4 and 1.  The step size of the
spec-modelled `scheme::advance` is instantiated at 1/4. -/
theorem checkpoint_schedule_scenario :
    checkpoint_times
      (run 8 (1/4) 1 cexState0 (Tasks.new 0 0) cexHydro cexModelA cexMesh cexControl).2.2
      = [0, 1/4, 1/2, 3/4, 1] := by
  norm_num [run, side_effects, scheme.advance, RecurringTask.advance, Tasks.new,
    RecurringTask.new, checkpoint_times, State.total_zones, cexState0, cexControl,
    Event.isIterationMessage]
  simp [List.filterMap_cons]

/-- Claim C3 (amended): for each of the three tasks serviced by
`side_effects` (iteration message, checkpoint writer, products writer) the
due condition `next_time <= state.time` is checked once per step, the task
advances exactly when it holds, and each task's successor depends only on
its own prior state, the solution state and its own interval; the fourth
recurring task, `report_progress`, is never checked or fired. -/
theorem side_effects_due_check (now : ℚ) (state : State) (tasks : Tasks)
    (hydro : RelativisticHydro) (model : Model) (mesh : Mesh) (control : Control) :
    ((side_effects now state tasks hydro model mesh control).1.iteration_message
        = if tasks.iteration_message.next_time ≤ state.time
          then (tasks.iteration_message.advance 0 now).1
          else tasks.iteration_message)
    ∧ ((side_effects now state tasks hydro model mesh control).1.write_checkpoint
        = if tasks.write_checkpoint.next_time ≤ state.time
          then (tasks.write_checkpoint.advance control.checkpoint_interval now).1
          else tasks.write_checkpoint)
    ∧ ((side_effects now state tasks hydro model mesh control).1.write_products
        = if tasks.write_products.next_time ≤ state.time
          then (tasks.write_products.advance control.products_interval now).1
          else tasks.write_products)
    ∧ ((side_effects now state tasks hydro model mesh control).1.report_progress
        = tasks.report_progress) := by
  unfold side_effects
  by_cases h1 : tasks.iteration_message.next_time ≤ state.time
    <;> by_cases h2 : tasks.write_checkpoint.next_time ≤ state.time
    <;> by_cases h3 : tasks.write_products.next_time ≤ state.time
    <;> simp [h1, h2, h3]

/-- Counterexample to claim C3 as stated: `report_progress` is one of the
recurring tasks (src/src/tasks.rs:47) and is due here (`next_time = 0 <=
state.time = 0`), yet `side_effects` never checks its due condition: it
stays unfired (count 0) in the very step in which the equally due checkpoint
task fires. -/
theorem report_progress_due_but_never_fired :
    (Tasks.new 0 0).report_progress.next_time ≤ cexState0.time
    ∧ (side_effects 1 cexState0 (Tasks.new 0 0) cexHydro cexModelA cexMesh
        cexControl).1.report_progress.count = 0
    ∧ (side_effects 1 cexState0 (Tasks.new 0 0) cexHydro cexModelA cexMesh
        cexControl).1.write_checkpoint.count = 1 := by
  refine ⟨by norm_num [Tasks.new, RecurringTask.new, cexState0], ?_, ?_⟩
    <;> norm_num [side_effects, Tasks.new, RecurringTask.new, RecurringTask.advance,
          cexState0, cexControl, State.total_zones]

/-- Claim C7 (amended): whenever the iteration logger is due it fires, but it
emits the `[{:05}] t={:.3} blocks={} Mzps={:.2})` message (modelled as the
`Event.iteration_message` carrying the interpolated iteration number, time,
block count and Mzps figure, src/src/main.rs:244) only when this is not the
first firing of the run, i.e. when `count_this_run` exceeds 1 after the
advance. -/
theorem iteration_message_events (now : ℚ) (state : State) (tasks : Tasks)
    (hydro : RelativisticHydro) (model : Model) (mesh : Mesh) (control : Control) :
    ((side_effects now state tasks hydro model mesh control).2.filter
        Event.isIterationMessage)
      = if tasks.iteration_message.next_time ≤ state.time
            ∧ tasks.iteration_message.count_this_run + 1 > 1 then
          [Event.iteration_message state.iteration state.time state.solution.length
            (1 / 1000000 * (state.total_zones : ℚ)
              / (now - tasks.iteration_message.last_performed))]
        else
          [] := by
  unfold side_effects
  by_cases h1 : tasks.iteration_message.next_time ≤ state.time
    <;> by_cases hc : tasks.iteration_message.count_this_run + 1 > 1
    <;> by_cases h2 : tasks.write_checkpoint.next_time ≤ state.time
    <;> by_cases h3 : tasks.write_products.next_time ≤ state.time
    <;> simp [h1, hc, h2, h3, RecurringTask.advance, Event.isIterationMessage]

/-- Counterexample to claim C7 as stated: on a fresh run the iteration
logger is due at the first step (`next_time = 0 <= state.time = 0`) and it
fires (`count_this_run` becomes 1), yet no iteration message is emitted,
because the print is guarded by `count_this_run > 1` (src/src/main.rs:243). -/
theorem iteration_logger_first_firing_silent :
    (Tasks.new 0 0).iteration_message.next_time ≤ cexState0.time
    ∧ (side_effects 1 cexState0 (Tasks.new 0 0) cexHydro cexModelA cexMesh
        cexControl).1.iteration_message.count_this_run = 1
    ∧ (side_effects 1 cexState0 (Tasks.new 0 0) cexHydro cexModelA cexMesh
        cexControl).2.filter Event.isIterationMessage = [] := by
  refine ⟨by norm_num [Tasks.new, RecurringTask.new, cexState0], ?_, ?_⟩
    <;> norm_num [side_effects, Tasks.new, RecurringTask.new, RecurringTask.advance,
          cexState0, cexControl, State.total_zones, Event.isIterationMessage]

/-- Claim C6 (amended): startup supports only the special-relativistic
system: for every configuration selecting it whose mesh yields a valid
geometry, `App::from_config` constructs the initial solution state via
`State::from_model` and `main` proceeds into `run` with that system;
configurations selecting the Euler system fail at startup. -/
theorem relativistic_startup_runs (fuel : Nat) (dt now : ℚ) (config : Configuration)
    (hydro : RelativisticHydro) (geometry : Geometry)
    (hh : config.hydro = AgnosticHydro.relativistic hydro)
    (hg : config.mesh.grid_blocks_geometry = Except.ok geometry) :
    App.from_config now config
      = Except.ok
          { state := AgnosticState.relativistic (State.from_model config.model hydro geometry)
            tasks := Tasks.new 0 now
            config := config }
    ∧ app_main fuel dt now config
      = Except.ok (run fuel dt now (State.from_model config.model hydro geometry)
          (Tasks.new 0 now) hydro config.model config.mesh config.control) := by
  obtain ⟨hy, mo, me, co⟩ := config
  dsimp only at hh hg ⊢
  subst hh
  have h1 : App.from_config now (Configuration.mk (AgnosticHydro.relativistic hydro) mo me co)
      = Except.ok
          { state := AgnosticState.relativistic (State.from_model mo hydro geometry)
            tasks := Tasks.new 0 now
            config := Configuration.mk (AgnosticHydro.relativistic hydro) mo me co } := by
    unfold App.from_config
    dsimp only
    rw [hg]
    rfl
  refine ⟨h1, ?_⟩
  unfold app_main
  rw [h1]
  rfl

/-- Witness for C6 at the concrete relativistic configuration
`cexRelConfig`, with fuel 2 and step size 1. -/
theorem relativistic_startup_runs_witness :
    cexRelConfig.hydro = AgnosticHydro.relativistic cexHydro
    ∧ cexRelConfig.mesh.grid_blocks_geometry = Except.ok [BlockGeometry.mk [(1, 1)]]
    ∧ (App.from_config 1 cexRelConfig
        = Except.ok
            { state := AgnosticState.relativistic
                (State.from_model cexRelConfig.model cexHydro [BlockGeometry.mk [(1, 1)]])
              tasks := Tasks.new 0 1
              config := cexRelConfig }
      ∧ app_main 2 1 1 cexRelConfig
        = Except.ok (run 2 1 1
            (State.from_model cexRelConfig.model cexHydro [BlockGeometry.mk [(1, 1)]])
            (Tasks.new 0 1) cexHydro cexRelConfig.model cexRelConfig.mesh
            cexRelConfig.control)) :=
  ⟨rfl, rfl,
    relativistic_startup_runs 2 1 1 cexRelConfig cexHydro [BlockGeometry.mk [(1, 1)]] rfl rfl⟩

/-- Counterexample to claim C6 as stated: the Euler system is one of the two
supported configuration variants, yet startup does not construct a solution
state for it: `App::from_config` fails with the error of
src/src/main.rs:189. -/
theorem euler_startup_fails :
    App.from_config 0 cexEulerConfig
      = Except.error "hydro: euler is not implemented yet" :=
  rfl
